import Mathlib

/-
  Verification development for the Smart Advisor programme-recommendation tool.

  The repository contains two variants of the same three-stage pipeline:
  * src/app.py        - Scheme A: additive Likert RIASEC scoring and a
                        rank-weighted discrete programme matcher;
  * src/data/app.py   - Scheme B: weighted multi-choice work-mode scoring,
                        keyword extraction from free text, cosine-similarity
                        matching, and an optional LLM explanation step.

  Python dictionaries preserve insertion order, so dictionaries keyed by the
  fixed dimension sets are embedded as structures with one field per key (the
  RIASEC scores) or as functions from an enumerated dimension type (the work
  modes), and iteration order is embedded as an explicit list of dimensions.
  Floating-point numbers are embedded as rationals except for the cosine
  similarity, whose square root forces real numbers.  Fallible code paths
  (pandas lookups that raise) are embedded with Option.
-/

/-! ### Character and string helpers

Python string primitives used by the two apps, re-implemented on lists of
characters so that every definition reduces inside the kernel. -/

/-- Value of a decimal digit character, or none. -/
def digitVal? (c : Char) : Option ℕ :=
  if c = '0' then some 0 else if c = '1' then some 1 else if c = '2' then some 2
  else if c = '3' then some 3 else if c = '4' then some 4 else if c = '5' then some 5
  else if c = '6' then some 6 else if c = '7' then some 7 else if c = '8' then some 8
  else if c = '9' then some 9 else none

/-- Accumulate a run of decimal digits; none on the first non-digit or on
an empty run. -/
def digitsVal? : List Char → Option ℕ → Option ℕ
  | [], acc => acc
  | c :: cs, acc =>
    match digitVal? c, acc with
    | some d, some a => digitsVal? cs (some (a * 10 + d))
    | some d, none => digitsVal? cs (some d)
    | none, _ => none

/-- Embedding of the Python built-in int() applied to a string: an optional
minus sign followed by decimal digits; any other shape raises ValueError,
embedded as none.  (Surface syntax that int() also accepts, such as
surrounding whitespace or a leading plus, does not occur in this code base.) -/
def pyInt? (cs : List Char) : Option ℤ :=
  match cs with
  | '-' :: rest => (digitsVal? rest none).map (fun n => -(n : ℤ))
  | _ => (digitsVal? cs none).map (fun n => (n : ℤ))

/-- Whitespace test used by the embedding of str.strip. -/
def isSpaceCh (c : Char) : Bool :=
  c == ' ' || c == '\t' || c == '\n' || c == '\r'

/-- Embedding of Python str.strip(): drop whitespace from both ends. -/
def pyStrip (cs : List Char) : List Char :=
  ((cs.dropWhile isSpaceCh).reverse.dropWhile isSpaceCh).reverse

/-- Helper for the embedding of str.split with a one-character separator. -/
def splitOnCommaAux : List Char → List Char → List (List Char)
  | [], cur => [cur.reverse]
  | c :: cs, cur =>
    if c = ',' then cur.reverse :: splitOnCommaAux cs [] else splitOnCommaAux cs (c :: cur)

/-- Embedding of the Python expression s.split(“,”) (written here without the
string literal): split on every comma, keeping empty pieces. -/
def splitOnComma (cs : List Char) : List (List Char) :=
  splitOnCommaAux cs []

/-- Does the second list start with the first? -/
def beginsWith : List Char → List Char → Bool
  | [], _ => true
  | _ :: _, [] => false
  | a :: as, b :: bs => a == b && beginsWith as bs

/-- Embedding of the Python substring test (the in operator on strings):
true when needle occurs contiguously inside haystack. -/
def containsSub (needle : List Char) : List Char → Bool
  | [] => needle.isEmpty
  | c :: cs => beginsWith needle (c :: cs) || containsSub needle cs

/-- Embedding of str.lower() on a list of characters. -/
def lowerChars (cs : List Char) : List Char :=
  cs.map Char.toLower

/-! ### Stable descending sort

Both apps sort score lists in descending order.  Scheme B uses the Python
list.sort method with a key function and reverse set, which is a stable sort
whose ties keep the original order.  We embed it as an insertion sort that
folds over the input from the left and inserts each element after every
already-placed element with a greater-or-equal key. -/

/-- Insert x after every element whose key is greater than or equal to the
key of x, and before the first element with a strictly smaller key. -/
def insertDescBy {σ α : Type} [LinearOrder α] (key : σ → α) (x : σ) : List σ → List σ
  | [] => [x]
  | y :: ys => if key x ≤ key y then y :: insertDescBy key x ys else x :: y :: ys

/-- Stable descending sort by key: the embedding of Python sorted and
list.sort with a key function and reverse set to True (CPython documents
that the reverse flag preserves stability). -/
def sortDescBy {σ α : Type} [LinearOrder α] (key : σ → α) (l : List σ) : List σ :=
  l.foldl (fun acc x => insertDescBy key x acc) []

/-- Insert x after every element whose key is less than or equal to the key
of x: one step of a stable ascending insertion sort. -/
def insertAscBy {σ α : Type} [LinearOrder α] (key : σ → α) (x : σ) : List σ → List σ
  | [] => [x]
  | y :: ys => if key y ≤ key x then y :: insertAscBy key x ys else x :: y :: ys

/-- Stable ascending sort by key. -/
def sortAscBy {σ α : Type} [LinearOrder α] (key : σ → α) (l : List σ) : List σ :=
  l.foldl (fun acc x => insertAscBy key x acc) []

/-- Embedding of pandas DataFrame.sort_values with ascending set to False:
pandas computes an ascending argsort and then reverses the whole index
array, so rows with equal keys come out in reversed input order.  (With the
default quicksort kind the underlying argsort is only guaranteed stable for
the small arrays that appear in the concrete statements below, where numpy
falls back to insertion sort.) -/
def pandas_sort_desc {σ α : Type} [LinearOrder α] (key : σ → α) (l : List σ) : List σ :=
  (sortAscBy key l).reverse

theorem mem_insertDescBy {σ α : Type} [LinearOrder α] (key : σ → α) (x z : σ)
    (l : List σ) : z ∈ insertDescBy key x l ↔ z = x ∨ z ∈ l := by
  induction l with
  | nil => simp [insertDescBy]
  | cons y ys ih =>
    by_cases h : key x ≤ key y
    · simp only [insertDescBy, if_pos h, List.mem_cons, ih]
      tauto
    · simp only [insertDescBy, if_neg h, List.mem_cons]

theorem sorted_insertDescBy {σ α : Type} [LinearOrder α] (key : σ → α) (x : σ)
    (l : List σ) (h : l.Pairwise (fun a b => key b ≤ key a)) :
    (insertDescBy key x l).Pairwise (fun a b => key b ≤ key a) := by
  induction l with
  | nil => simp [insertDescBy]
  | cons y ys ih =>
    rcases List.pairwise_cons.mp h with ⟨hy, hys⟩
    by_cases hxy : key x ≤ key y
    · rw [insertDescBy, if_pos hxy]
      refine List.pairwise_cons.mpr ⟨?_, ih hys⟩
      intro z hz
      rcases (mem_insertDescBy key x z ys).mp hz with rfl | hzys
      · exact hxy
      · exact hy z hzys
    · rw [insertDescBy, if_neg hxy]
      refine List.pairwise_cons.mpr ⟨?_, h⟩
      intro z hz
      rcases List.mem_cons.mp hz with rfl | hzys
      · exact le_of_not_le hxy
      · exact le_trans (hy z hzys) (le_of_not_le hxy)

theorem filter_insertDescBy {σ α : Type} [LinearOrder α] [DecidableEq α]
    (key : σ → α) (c : α) (x : σ) (l : List σ)
    (h : l.Pairwise (fun a b => key b ≤ key a)) :
    (insertDescBy key x l).filter (fun z => key z = c) =
      if key x = c then l.filter (fun z => key z = c) ++ [x]
      else l.filter (fun z => key z = c) := by
  induction l with
  | nil =>
    by_cases hx : key x = c <;> simp [insertDescBy, List.filter, hx]
  | cons y ys ih =>
    rcases List.pairwise_cons.mp h with ⟨hy, hys⟩
    by_cases hxy : key x ≤ key y
    · rw [insertDescBy, if_pos hxy, List.filter_cons, List.filter_cons, ih hys]
      by_cases hx : key x = c <;> by_cases hyc : key y = c <;> simp [hx, hyc]
    · rw [insertDescBy, if_neg hxy]
      by_cases hx : key x = c
      · rw [if_pos hx]
        have hnil : (y :: ys).filter (fun z => key z = c) = [] := by
          rw [List.filter_eq_nil_iff]
          intro z hz
          have hzle : key z ≤ key y := by
            rcases List.mem_cons.mp hz with rfl | hzys
            · exact le_refl _
            · exact hy z hzys
          have : key z < key x := lt_of_le_of_lt hzle (lt_of_not_le hxy)
          simp only [decide_eq_true_eq]
          exact ne_of_lt (hx ▸ this)
        rw [List.filter_cons, hnil]
        simp [hx]
      · rw [if_neg hx, List.filter_cons]
        simp [hx]

theorem filter_sortDescBy_aux {σ α : Type} [LinearOrder α] [DecidableEq α]
    (key : σ → α) (c : α) (l : List σ) :
    ∀ acc : List σ, acc.Pairwise (fun a b => key b ≤ key a) →
      (l.foldl (fun a x => insertDescBy key x a) acc).filter (fun z => key z = c) =
        acc.filter (fun z => key z = c) ++ l.filter (fun z => key z = c) := by
  induction l with
  | nil => intro acc _; simp
  | cons x xs ih =>
    intro acc hacc
    rw [List.foldl_cons, ih _ (sorted_insertDescBy key x acc hacc),
      filter_insertDescBy key c x acc hacc, List.filter_cons]
    by_cases hx : key x = c <;> simp [hx]

/-- Stability of the descending sort used by both apps: for every key value
c, the elements whose key equals c appear in the sorted list in exactly
their input order. -/
theorem sortDescBy_stable {σ α : Type} [LinearOrder α] [DecidableEq α]
    (key : σ → α) (c : α) (l : List σ) :
    (sortDescBy key l).filter (fun z => key z = c) = l.filter (fun z => key z = c) := by
  have h := filter_sortDescBy_aux key c l [] List.Pairwise.nil
  simpa [sortDescBy] using h

/-! ### Scheme A data model (src/app.py) -/

/-- The six RIASEC dimension codes, in the enumeration order of the
riasec_scores dictionary literal of calculate_riasec_scores. -/
inductive Dim : Type
  | R
  | I
  | A
  | S
  | E
  | C
deriving DecidableEq

/-- One row of the Questions reference table, restricted to the columns the
scorer reads: Question_ID and RIASEC_Type. -/
structure Question where
  question_id : String
  riasec_type : Dim
deriving DecidableEq

/-- The riasec_scores dictionary after normalisation: one rational score
per fixed RIASEC key. -/
structure RiasecScores where
  r : ℚ
  i : ℚ
  a : ℚ
  s : ℚ
  e : ℚ
  c : ℚ
deriving DecidableEq

/-- The riasec_scores dictionary during accumulation: Python integers, one
bucket per fixed RIASEC key. -/
structure RiasecRaw where
  r : ℤ
  i : ℤ
  a : ℤ
  s : ℤ
  e : ℤ
  c : ℤ
deriving DecidableEq

/-- The dictionary literal initialising every RIASEC bucket to zero. -/
def initRiasec : RiasecRaw := ⟨0, 0, 0, 0, 0, 0⟩

/-- Add v to the bucket of dimension d. -/
def addDim (sc : RiasecRaw) (d : Dim) (v : ℤ) : RiasecRaw :=
  match d with
  | .R => { sc with r := sc.r + v }
  | .I => { sc with i := sc.i + v }
  | .A => { sc with a := sc.a + v }
  | .S => { sc with s := sc.s + v }
  | .E => { sc with e := sc.e + v }
  | .C => { sc with c := sc.c + v }

/-- One iteration of the response loop of calculate_riasec_scores: a
response whose question id starts with Q and parses to a number at most 24
is looked up in the questions table and its value minus one is accumulated
into the bucket of the RIASEC type of the question.  A non-parsing id (int
raises ValueError) or a missing table row (.iloc[0] on an empty selection
raises IndexError) aborts the pass, embedded as none.  Any other response
id is skipped. -/
def interestStep (qs : List Question) (acc : Option RiasecRaw)
    (resp : String × ℤ) : Option RiasecRaw :=
  match acc with
  | none => none
  | some sc =>
    match resp.1.toList with
    | 'Q' :: rest =>
      match pyInt? rest with
      | none => none
      | some n =>
        if n ≤ 24 then
          match qs.find? (fun q => q.question_id = resp.1) with
          | none => none
          | some q => some (addDim sc q.riasec_type (resp.2 - 1))
        else some sc
    | _ => some sc

/-- Final normalisation of calculate_riasec_scores: every bucket is divided
by 16 (four questions times four points) and scaled to a percentage. -/
def normalizeRiasec (sc : RiasecRaw) : RiasecScores :=
  ⟨(sc.r : ℚ) / 16 * 100, (sc.i : ℚ) / 16 * 100, (sc.a : ℚ) / 16 * 100,
   (sc.s : ℚ) / 16 * 100, (sc.e : ℚ) / 16 * 100, (sc.c : ℚ) / 16 * 100⟩

/-- Embedding of calculate_riasec_scores: fold the response record (a dict
in insertion order, embedded as an association list) through interestStep
and normalise.  The function iterates over the responses that are present;
it has no notion of a required question being absent. -/
def calculate_riasec_scores (responses : List (String × ℤ)) (qs : List Question) :
    Option RiasecScores :=
  (responses.foldl (interestStep qs) (some initRiasec)).map normalizeRiasec

/-- The items view of the riasec_scores dictionary, in insertion order. -/
def riasecItems (sc : RiasecScores) : List (Dim × ℚ) :=
  [(Dim.R, sc.r), (Dim.I, sc.i), (Dim.A, sc.a), (Dim.S, sc.s), (Dim.E, sc.e), (Dim.C, sc.c)]

/-- Embedding of get_top_riasec: stable descending sort of the score items
by score, then the first n codes. -/
def get_top_riasec (sc : RiasecScores) (n : ℕ) : List Dim :=
  ((sortDescBy (fun x => x.2) (riasecItems sc)).take n).map Prod.fst

/-- One row of the Programmes reference table, restricted to the columns
the matcher reads.  A NaN tertiary tag or NaN value-tag cell is embedded as
none.  Display-only columns (name, faculty) are not modelled. -/
structure Programme where
  programme_id : String
  primary_riasec : Dim
  secondary_riasec : Dim
  tertiary_riasec : Option Dim
  value_tags : Option String
deriving DecidableEq

/-- Points from the first RIASEC code of the student (if/elif on primary then
secondary). -/
def tier1Score (t0 : Dim) (p : Programme) : ℚ :=
  if t0 = p.primary_riasec then 5 else if t0 = p.secondary_riasec then 3 else 0

/-- Points from the second RIASEC code of the student (if/elif on primary,
secondary, then tertiary when present). -/
def tier2Score (t1 : Dim) (p : Programme) : ℚ :=
  if t1 = p.primary_riasec then 3
  else if t1 = p.secondary_riasec then 2
  else
    match p.tertiary_riasec with
    | some t => if t1 = t then 1 else 0
    | none => 0

/-- Points from the third RIASEC code of the student (primary only). -/
def tier3Score (t2 : Dim) (p : Programme) : ℚ :=
  if t2 = p.primary_riasec then 1 else 0

/-- Bonus when both of the top two codes of the student lie in the
primary/secondary pair of the programme. -/
def bonusScore (t0 t1 : Dim) (p : Programme) : ℚ :=
  if (t0 = p.primary_riasec ∨ t0 = p.secondary_riasec) ∧
      (t1 = p.primary_riasec ∨ t1 = p.secondary_riasec) then 2 else 0

/-- The comma-separated Value_Tags cell split and stripped, as in the list
comprehension of match_programmes. -/
def parseValueTags (s : String) : List String :=
  (splitOnComma s.toList).map (fun cs => String.mk (pyStrip cs))

/-- Points from value matching: one and a half points for every entry of
the top-value list of the student found among the value tags of the
programme; zero
when the Value_Tags cell is NaN. -/
def valueScore (tvs : List String) (p : Programme) : ℚ :=
  match p.value_tags with
  | none => 0
  | some s => 3 / 2 * ((tvs.countP (fun v => (parseValueTags s).contains v)) : ℚ)

/-- The per-programme score of the match_programmes loop.  The source
indexes top_riasec[0] unconditionally and guards indices 1 and 2 with
length tests; get_top_riasec over the six dimensions always returns three
codes, so the none branches are unreachable and are embedded as a zero
contribution. -/
def scoreProgramme (top : List Dim) (tvs : List String) (p : Programme) : ℚ :=
  (match top.get? 0 with | some t0 => tier1Score t0 p | none => 0)
  + (match top.get? 1 with | some t1 => tier2Score t1 p | none => 0)
  + (match top.get? 2 with | some t2 => tier3Score t2 p | none => 0)
  + (match top.get? 0, top.get? 1 with
     | some t0, some t1 => bonusScore t0 t1 p
     | _, _ => 0)
  + valueScore tvs p

/-- One row of the scores list of match_programmes (display-only columns
elided). -/
structure MatchResult where
  prog : Programme
  match_score : ℚ
deriving DecidableEq

/-- Embedding of match_programmes: score every programme row in input
order, build the result table, sort descending by Match_Score through the
pandas sort, and keep the first top_n rows.  On an empty programme table
the scores list is empty, pd.DataFrame of an empty list has no columns,
and sort_values raises KeyError on the missing Match_Score column,
embedded as none. -/
def match_programmes (sc : RiasecScores) (tvs : List String)
    (progs : List Programme) (top_n : ℕ) : Option (List MatchResult) :=
  let top := get_top_riasec sc 3
  let results := progs.map (fun p => MatchResult.mk p (scoreProgramme top tvs p))
  if results.isEmpty then none
  else some ((pandas_sort_desc (fun r => r.match_score) results).take top_n)

/-! ### Scheme B data model (src/data/app.py) -/

/-- The seven work-mode dimensions, in the order of the WORK_MODES list. -/
inductive Mode : Type
  | builder
  | analyst
  | people
  | creative
  | researcher
  | operator
  | systems
deriving DecidableEq

/-- The WORK_MODES configuration list, in source order. -/
def WORK_MODES : List Mode :=
  [.builder, .analyst, .people, .creative, .researcher, .operator, .systems]

/-- The lower-case name of a work mode, as it appears in WORK_MODES and in
programme tag cells. -/
def modeName (m : Mode) : String :=
  match m with
  | .builder => "builder"
  | .analyst => "analyst"
  | .people => "people"
  | .creative => "creative"
  | .researcher => "researcher"
  | .operator => "operator"
  | .systems => "systems"

/-- The MODE_MAP table: the weight contributions of each multiple-choice
option.  Options absent from the table (MODE_MAP.get with a default of the
empty dict) contribute nothing. -/
def MODE_MAP : String → List (Mode × ℕ)
  | "Prototype hardware" => [(.builder, 2), (.systems, 1)]
  | "Design screens/UX" => [(.creative, 2), (.people, 1)]
  | "Interview potential users" => [(.people, 2), (.analyst, 1)]
  | "Build the data pipeline" => [(.analyst, 2), (.systems, 1)]
  | "Coordinate tasks & timeline" => [(.operator, 2), (.people, 1)]
  | "Code backend" => [(.analyst, 2), (.systems, 1)]
  | "Run user tests" => [(.people, 2), (.analyst, 1)]
  | "Project manage" => [(.operator, 2), (.people, 1)]
  | "Design UI" => [(.creative, 2), (.people, 1)]
  | "Analyze traffic" => [(.analyst, 2), (.systems, 1)]
  | "Lab experiments with equipment" => [(.builder, 2), (.researcher, 1)]
  | "Fieldwork with stakeholders" => [(.people, 2), (.operator, 1)]
  | "Theoretical modelling & proofs" => [(.researcher, 2), (.analyst, 1)]
  | "Business case with ops plan" => [(.operator, 2), (.analyst, 1)]
  | "System integration across tools" => [(.systems, 2), (.builder, 1)]
  | "Checklists & SOPs" => [(.operator, 2), (.systems, 1)]
  | "Explore ideas then refine" => [(.creative, 2), (.researcher, 1)]
  | "Analyse datasets for insight" => [(.analyst, 2), (.systems, 1)]
  | "Design the overall architecture" => [(.systems, 2), (.analyst, 1)]
  | "Hands-on building and testing" => [(.builder, 2), (.systems, 1)]
  | "Making things clearer for people" => [(.people, 2), (.operator, 1)]
  | "Finding patterns in messy data" => [(.analyst, 2), (.researcher, 1)]
  | "Crafting visuals & interactions" => [(.creative, 2), (.people, 1)]
  | "Debug circuitry/mechanics" => [(.builder, 2), (.systems, 1)]
  | "Trace code/data flows" => [(.analyst, 2), (.systems, 1)]
  | "Talk to users to understand context" => [(.people, 2), (.analyst, 1)]
  | "Re-organise process/workflow" => [(.operator, 2), (.systems, 1)]
  | _ => []

/-- The IGNORES set: options that are explicitly skipped. -/
def IGNORES : List String := ["None of these"]

/-- The TEXT_KEYWORDS table: per-mode keyword lists for the free-text box. -/
def TEXT_KEYWORDS (m : Mode) : List String :=
  match m with
  | .builder =>
    ["prototype", "hardware", "tooling", "fabrication", "manufactur", "mech",
     "hands-on", "lab", "robot", "cad", "solidworks", "autocad", "arduino"]
  | .analyst =>
    ["data", "model", "analysis", "statistics", "analytics", "excel", "sql",
     "python", " r ", "matlab", "forecast", "optimi", "quant"]
  | .people =>
    ["interview", "users", "stakeholder", "team", "client", "community",
     "lead", "mentor", "volunteer", "club"]
  | .creative =>
    ["design", "ui", "ux", "sketch", "figma", "aesthet", "visual", "brand",
     "story", "media"]
  | .researcher =>
    ["paper", "research", "experiment", "hypothesis", "literature", "study",
     "theory", "journal", "simulation"]
  | .operator =>
    ["process", "ops", "operations", "sop", "checklist", "maintenance",
     "logistics", "supply", "safety", "compliance"]
  | .systems =>
    ["system", "architecture", "workflow", "pipeline", "integration",
     "platform", "network", "infrastructure"]

/-- The per-mode keyword tally of extract_modes_from_text: how many of the
keywords of the mode occur as substrings of the lower-cased text.  Each keyword
counts at most once, as in the source loop. -/
def textTally (text : String) (m : Mode) : ℕ :=
  (TEXT_KEYWORDS m).countP (fun kw => containsSub kw.toList (lowerChars text.toList))

/-- The hits total of extract_modes_from_text: the sum of all tallies. -/
def textHits (text : String) : ℕ :=
  (WORK_MODES.map (textTally text)).sum

/-- Embedding of extract_modes_from_text: the zero vector when no keyword
hits, otherwise the tally vector rescaled so that its entries sum to the
scale constant 6. -/
def extract_modes_from_text (text : String) : Mode → ℚ :=
  fun m =>
    if textHits text = 0 then 0
    else ((textTally text m : ℚ) / (textHits text : ℚ)) * 6

/-- The dot product of the cosine helper, over the fixed WORK_MODES keys. -/
def dotModes (a b : Mode → ℚ) : ℚ :=
  (WORK_MODES.map (fun k => a k * b k)).sum

/-- The sum of squares under one of the two sqrt calls of cosine. -/
def normSqModes (a : Mode → ℚ) : ℚ :=
  (WORK_MODES.map (fun k => a k ^ 2)).sum

/-- The Euclidean magnitude computed by cosine. -/
noncomputable def magnitude (a : Mode → ℚ) : ℝ :=
  Real.sqrt ((normSqModes a : ℚ) : ℝ)

open Classical in
/-- Embedding of the cosine helper: exactly zero when either operand has
zero magnitude, otherwise the dot product over the product of magnitudes. -/
noncomputable def cosine (a b : Mode → ℚ) : ℝ :=
  if magnitude a = 0 ∨ magnitude b = 0 then 0
  else ((dotModes a b : ℚ) : ℝ) / (magnitude a * magnitude b)

/-- One row of the programmes CSV, restricted to the columns the scorer
reads. -/
structure ProgrammeB where
  program_name : String
  institution : String
  tags_work_modes : String
deriving DecidableEq

/-- Embedding of row_mode_vec: split the tag cell on commas, strip and
lower-case each piece, count the pieces naming each work mode, and divide
by the total count of recognised pieces (zero vector when none). -/
def row_mode_vec (row : ProgrammeB) : Mode → ℚ :=
  let pieces := (splitOnComma row.tags_work_modes.toList).map (fun cs => lowerChars (pyStrip cs))
  let counts : Mode → ℕ := fun m => pieces.countP (fun t => t = (modeName m).toList)
  let total := (WORK_MODES.map counts).sum
  fun m => if total = 0 then 0 else (counts m : ℚ) / (total : ℚ)

/-- The weight that one selected option contributes to one mode: zero for
options in IGNORES, otherwise the MODE_MAP contribution. -/
def optionWeight (choice : String) (m : Mode) : ℕ :=
  if IGNORES.contains choice then 0
  else ((MODE_MAP choice).filter (fun kv => kv.1 = m)).foldl (fun sum kv => sum + kv.2) 0

/-- The mode_vec accumulation of the form handler: the sum over every
selected option of every question of the weights of that option. -/
def accumulate_mode_vec (ans : List (List String)) (m : Mode) : ℕ :=
  (ans.map (fun choices => (choices.map (fun ch => optionWeight ch m)).sum)).sum

/-- The user_mode normalisation: selected-option weights plus the free-text
vector, divided by the static maximum 24 + 6. -/
def user_mode (ans : List (List String)) (about : String) (m : Mode) : ℚ :=
  ((accumulate_mode_vec ans m : ℚ) + extract_modes_from_text about m) / 30

/-- The scored list: one tuple of final score (one hundred times the mode
fit), mode fit, and row per programme, in input order. -/
noncomputable def scoredList (user : Mode → ℚ) (progs : List ProgrammeB) :
    List (ℝ × ℝ × ProgrammeB) :=
  progs.map (fun r =>
    (100 * cosine user (row_mode_vec r), cosine user (row_mode_vec r), r))

/-- The sorted scored list: stable descending Python list.sort on the
first tuple component. -/
noncomputable def sortedScored (user : Mode → ℚ) (progs : List ProgrammeB) :
    List (ℝ × ℝ × ProgrammeB) :=
  sortDescBy (fun t => t.1) (scoredList user progs)

/-- The environment of the optional explanation collaborator.  envKey is
the result of os.getenv, which is total: none when the variable is unset.
secrets is the outcome of st.secrets.get: the Streamlit secrets store
raises (FileNotFoundError or StreamlitSecretNotFoundError) when no
secrets file exists at all, embedded as the error case; a readable store
yields its optional entry (Mapping.get catches only KeyError and returns
None for an absent entry).  call is the outcome of the network request
made inside the try block: an exception for a network error, a timeout or
a malformed response, since reading a missing field of a malformed
response raises. -/
structure LLMEnv where
  envKey : Option String
  secrets : Except String (Option String)
  call : List ProgrammeB → Except String String

/-- The credential lookup of llm_explain, the Python expression
os.getenv(...) or st.secrets.get(...): the or operator short-circuits on
a truthy (non-empty) environment value and otherwise evaluates the
secrets lookup, whose exception propagates because this line sits outside
the try/except. -/
def lookupApiKey (env : LLMEnv) : Except String (Option String) :=
  match env.envKey with
  | some k => if k = "" then env.secrets else Except.ok (some k)
  | none => env.secrets

/-- Embedding of llm_explain.  The credential lookup runs before the try
block, so an exception from the secrets store propagates out of
llm_explain (the error case of the result).  A falsy credential (absent,
or the empty string) returns the no-explanation value.  An exception
from the call inside the try block is swallowed by the handler (showing
only a soft caption) and also returns the no-explanation value;
otherwise the stripped response text is returned.  The prompt string
built from the identity snapshot is display-only and not modelled. -/
def llm_explain (env : LLMEnv) (top_rows : List ProgrammeB) :
    Except String (Option String) :=
  match lookupApiKey env with
  | Except.error e => Except.error e
  | Except.ok none => Except.ok none
  | Except.ok (some k) =>
    if k = "" then Except.ok none
    else
      match env.call top_rows with
      | Except.error _ => Except.ok none
      | Except.ok text => Except.ok (some text.trim)

/-- What the results branch of the form handler produces: the truncated
ranking, and the outcome of the explanation step (whose error case is an
uncaught exception that aborts the script run after the ranking has been
rendered). -/
structure RunOutput where
  ranking : List (ℝ × ℝ × ProgrammeB)
  explanation : Except String (Option String)

/-- Embedding of the scoring branch of the form handler: build user_mode
from the selections and the free text, score and sort every programme, keep
the top six, then ask the optional collaborator for an explanation of the
top rows. -/
noncomputable def runSchemeB (ans : List (List String)) (about : String)
    (progs : List ProgrammeB) (env : LLMEnv) : RunOutput :=
  let top := (sortedScored (user_mode ans about) progs).take 6
  { ranking := top
    explanation := llm_explain env (top.map (fun t => t.2.2)) }

/-! ### Reference questions table -/

/-- The dimension of interest-question block i (four consecutive questions
per dimension). -/
def dimOfBlock (i : ℕ) : Dim :=
  if i < 4 then .R else if i < 8 then .I else if i < 12 then .A
  else if i < 16 then .S else if i < 20 then .E else .C

/-- Modelled from the spec: the Questions sheet of the Excel workbook
(reference data loaded by load_data, not present under src/), restricted to
the 24 interest rows.  The spec fixes ids Q1 through Q24 with exactly four
questions per RIASEC dimension; the blocks are laid out in enumeration
order. -/
def questions_ref : List Question :=
  (List.range 24).map (fun i => ⟨"Q" ++ toString (i + 1), dimOfBlock i⟩)

/-- A complete interest-response record: every question Q1 through Q24
answered with the same Likert value v. -/
def allResponses (v : ℤ) : List (String × ℤ) :=
  (List.range 24).map (fun i => ("Q" ++ toString (i + 1), v))

/-- A partial response record: the all-neutral record with the entry for
the required question Q1 removed. -/
def partialResponses : List (String × ℤ) :=
  (allResponses 3).drop 1

/-! ### Claims about the Profile Scorer -/

/-- Claim C4: under Strategy A, an all-neutral record (every Likert answer
equal to 3) scores exactly 50.0 on every dimension; an all-maximum record
(every answer 5) scores exactly 100.0; an all-minimum record (every answer
1) scores exactly 0.0. -/
theorem c4_strategyA_anchor_scores :
    calculate_riasec_scores (allResponses 3) questions_ref =
      some ⟨50, 50, 50, 50, 50, 50⟩ ∧
    calculate_riasec_scores (allResponses 5) questions_ref =
      some ⟨100, 100, 100, 100, 100, 100⟩ ∧
    calculate_riasec_scores (allResponses 1) questions_ref =
      some ⟨0, 0, 0, 0, 0, 0⟩ := by
  refine ⟨?_, ?_, ?_⟩
  · have h : (allResponses 3).foldl (interestStep questions_ref) (some initRiasec) =
        some ⟨8, 8, 8, 8, 8, 8⟩ := by decide
    unfold calculate_riasec_scores
    rw [h]
    norm_num [normalizeRiasec]
  · have h : (allResponses 5).foldl (interestStep questions_ref) (some initRiasec) =
        some ⟨16, 16, 16, 16, 16, 16⟩ := by decide
    unfold calculate_riasec_scores
    rw [h]
    norm_num [normalizeRiasec]
  · have h : (allResponses 1).foldl (interestStep questions_ref) (some initRiasec) =
        some ⟨0, 0, 0, 0, 0, 0⟩ := by decide
    unfold calculate_riasec_scores
    rw [h]
    norm_num [normalizeRiasec]

/-- Claim C1 counterexample: the Scorer does not fail on a response record
that lacks the required question Q1; calculate_riasec_scores returns a
result on the partial record, so scoring proceeds. -/
theorem c1_counterexample_scorer_proceeds :
    (calculate_riasec_scores partialResponses questions_ref).isSome = true := by
  have h : partialResponses.foldl (interestStep questions_ref) (some initRiasec) =
      some ⟨6, 8, 8, 8, 8, 8⟩ := by decide
  unfold calculate_riasec_scores
  rw [h]
  rfl

/-- Claim C1 (amended): the Scorer never fails with a MissingResponse
error; on a record missing the required question Q1 it proceeds and
silently treats the missing answer as a zero contribution, so the R score
drops from the 50 of the complete all-neutral record to 37.5 with no
error raised.  Completeness is enforced only by the Collector UI, which
disables the navigation buttons until the current question is answered. -/
theorem c1_amended_silent_zero_default :
    calculate_riasec_scores partialResponses questions_ref =
      some ⟨75 / 2, 50, 50, 50, 50, 50⟩ := by
  have h : partialResponses.foldl (interestStep questions_ref) (some initRiasec) =
      some ⟨6, 8, 8, 8, 8, 8⟩ := by decide
  unfold calculate_riasec_scores
  rw [h]
  norm_num [normalizeRiasec]

/-- Claim C7: the top-3 RIASEC codes are obtained by a stable descending
sort of the score items, so ties are broken by the original R,I,A,S,E,C
enumeration order of the score dictionary; in particular all-equal scores
give exactly [R, I, A]. -/
theorem c7_top3_tie_break_enumeration_order :
    (∀ s : ℚ, get_top_riasec ⟨s, s, s, s, s, s⟩ 3 = [Dim.R, Dim.I, Dim.A]) ∧
    (∀ (sc : RiasecScores) (c : ℚ),
      (sortDescBy (fun x => x.2) (riasecItems sc)).filter (fun x => x.2 = c) =
        (riasecItems sc).filter (fun x => x.2 = c)) := by
  constructor
  · intro s
    simp [get_top_riasec, riasecItems, sortDescBy, insertDescBy]
  · intro sc c
    exact sortDescBy_stable (fun x => x.2) c (riasecItems sc)

/-! ### Claims about the Programme Matcher -/

/-- Claim C2 counterexample: on a programme table with zero rows, Scheme A
does not return an empty Ranking; the pandas sort raises (the empty
DataFrame has no Match_Score column), embedded as none. -/
theorem c2_counterexample_schemeA_errors_on_empty :
    match_programmes ⟨50, 50, 50, 50, 50, 50⟩ [] [] 8 = none := rfl

/-- Claim C2 (amended): on a programme table with zero rows, Scheme B
returns an empty Ranking as a valid-but-degenerate result, but Scheme A
raises an error (KeyError from sort_values on the column-free empty
DataFrame) instead of returning an empty Ranking. -/
theorem c2_amended_empty_table :
    (∀ (sc : RiasecScores) (tvs : List String) (n : ℕ),
      match_programmes sc tvs [] n = none) ∧
    (∀ (ans : List (List String)) (about : String) (env : LLMEnv),
      (runSchemeB ans about [] env).ranking = []) := by
  constructor
  · intro sc tvs n
    rfl
  · intro ans about env
    rfl

/-- Claim C3 counterexample: two programmes with identical computed scores
under Scheme A come out of match_programmes in reversed input order, so
the programme appearing earlier in the input does not appear earlier in
the Ranking. -/
theorem c3_counterexample_schemeA_ties_reversed :
    match_programmes ⟨50, 50, 50, 50, 50, 50⟩ []
      [⟨"P1", Dim.S, Dim.E, none, none⟩, ⟨"P2", Dim.S, Dim.E, none, none⟩] 8 =
    some [⟨⟨"P2", Dim.S, Dim.E, none, none⟩, 0⟩,
          ⟨⟨"P1", Dim.S, Dim.E, none, none⟩, 0⟩] := by
  have htop : get_top_riasec ⟨50, 50, 50, 50, 50, 50⟩ 3 = [Dim.R, Dim.I, Dim.A] := by
    norm_num [get_top_riasec, riasecItems, sortDescBy, insertDescBy]
  have hsc : ∀ pid : String, scoreProgramme [Dim.R, Dim.I, Dim.A] []
      ⟨pid, Dim.S, Dim.E, none, none⟩ = 0 := by
    intro pid
    simp [scoreProgramme, tier1Score, tier2Score, tier3Score, bonusScore, valueScore]
  simp [match_programmes, htop, hsc, pandas_sort_desc, sortAscBy, insertAscBy]

/-- Claim C3 (amended): the Scheme B Ranking is produced by a stable sort,
so programmes with equal scores keep their input order; the Scheme A sort
is not stable in that sense: pandas sorts ascending and reverses, so two
programmes with equal scores appear in the Ranking in reversed input
order. -/
theorem c3_amended_stability :
    (∀ (user : Mode → ℚ) (progs : List ProgrammeB) (c : ℝ),
      (sortedScored user progs).filter (fun t => t.1 = c) =
        (scoredList user progs).filter (fun t => t.1 = c)) ∧
    (∀ (sc : RiasecScores) (tvs : List String) (p q : Programme) (n : ℕ),
      2 ≤ n →
      scoreProgramme (get_top_riasec sc 3) tvs p =
        scoreProgramme (get_top_riasec sc 3) tvs q →
      match_programmes sc tvs [p, q] n =
        some [⟨q, scoreProgramme (get_top_riasec sc 3) tvs q⟩,
              ⟨p, scoreProgramme (get_top_riasec sc 3) tvs p⟩]) := by
  constructor
  · intro user progs c
    exact sortDescBy_stable (fun t => t.1) c (scoredList user progs)
  · intro sc tvs p q n hn heq
    unfold match_programmes pandas_sort_desc sortAscBy
    simp only [List.map_cons, List.map_nil, List.foldl_cons, List.foldl_nil,
      List.isEmpty_cons, Bool.false_eq_true, if_false]
    rw [insertAscBy]
    rw [insertAscBy, if_pos (le_of_eq heq)]
    rw [insertAscBy]
    simp only [List.reverse_cons, List.reverse_nil, List.nil_append, List.cons_append]
    rw [List.take_of_length_le (by simpa using hn)]

/-- Claim C3 witness: a concrete instantiation of the tied two-programme
case of the amended stability statement. -/
theorem c3_amended_stability_witness :
    match_programmes ⟨50, 50, 50, 50, 50, 50⟩ []
      [⟨"PX", Dim.E, Dim.S, none, none⟩, ⟨"PY", Dim.E, Dim.S, none, none⟩] 6 =
    some [⟨⟨"PY", Dim.E, Dim.S, none, none⟩,
            scoreProgramme (get_top_riasec ⟨50, 50, 50, 50, 50, 50⟩ 3) []
              ⟨"PY", Dim.E, Dim.S, none, none⟩⟩,
          ⟨⟨"PX", Dim.E, Dim.S, none, none⟩,
            scoreProgramme (get_top_riasec ⟨50, 50, 50, 50, 50, 50⟩ 3) []
              ⟨"PX", Dim.E, Dim.S, none, none⟩⟩] :=
  c3_amended_stability.2 ⟨50, 50, 50, 50, 50, 50⟩ []
    ⟨"PX", Dim.E, Dim.S, none, none⟩ ⟨"PY", Dim.E, Dim.S, none, none⟩ 6
    (by decide) rfl

/-- Claim C6 counterexample: for a profile with top codes [R, I, A] and a
programme whose primary tag is the top code R, whose secondary tag is the
second code I, with no tertiary tag and no value-tag match, the computed
Scheme A score is 9, not the 10 the claim states. -/
theorem c6_counterexample_score_is_nine :
    scoreProgramme (get_top_riasec ⟨100, 80, 0, 0, 0, 0⟩ 3) []
      ⟨"P1", Dim.R, Dim.I, none, none⟩ = 9 ∧
    ¬ (scoreProgramme (get_top_riasec ⟨100, 80, 0, 0, 0, 0⟩ 3) []
        ⟨"P1", Dim.R, Dim.I, none, none⟩ = 10) := by
  have htop : get_top_riasec ⟨100, 80, 0, 0, 0, 0⟩ 3 = [Dim.R, Dim.I, Dim.A] := by
    norm_num [get_top_riasec, riasecItems, sortDescBy, insertDescBy]
  rw [htop]
  constructor
  · simp [scoreProgramme, tier1Score, tier2Score, tier3Score, bonusScore, valueScore]
    norm_num
  · simp [scoreProgramme, tier1Score, tier2Score, tier3Score, bonusScore, valueScore]
    norm_num

/-- Claim C6 (amended): under Scheme A, a programme whose primary tag
equals the top code of the user and whose secondary tag equals the
second code, with no tertiary tag and no value-tag contribution, scores
exactly 9 points: 5 for the first-code primary match, 2 (not 3) for the
second-code secondary match, and the 2-point top-2 bonus. -/
theorem c6_amended_score_is_nine (sc : RiasecScores) (tvs : List String) (p : Programme)
    (h0 : (get_top_riasec sc 3).get? 0 = some p.primary_riasec)
    (h1 : (get_top_riasec sc 3).get? 1 = some p.secondary_riasec)
    (hps : p.primary_riasec ≠ p.secondary_riasec)
    (h2 : (get_top_riasec sc 3).get? 2 ≠ some p.primary_riasec)
    (ht : p.tertiary_riasec = none)
    (hv : valueScore tvs p = 0) :
    scoreProgramme (get_top_riasec sc 3) tvs p = 9 := by
  have hsp : p.secondary_riasec ≠ p.primary_riasec := fun h => hps h.symm
  unfold scoreProgramme
  rcases hg2 : (get_top_riasec sc 3).get? 2 with _ | t2
  · rw [h0, h1, hv]
    simp [tier1Score, tier2Score, bonusScore, hsp]
    norm_num
  · have ht2 : t2 ≠ p.primary_riasec := by
      intro hh
      exact h2 (by rw [hg2, hh])
    rw [h0, h1, hv]
    simp [tier1Score, tier2Score, tier3Score, bonusScore, hsp, ht2]
    norm_num

/-- Claim C6 witness: the amended 9-point statement instantiated at a
concrete profile and programme. -/
theorem c6_amended_score_is_nine_witness :
    scoreProgramme (get_top_riasec ⟨100, 80, 0, 0, 0, 0⟩ 3) []
      ⟨"P2", Dim.R, Dim.I, none, none⟩ = 9 :=
  c6_amended_score_is_nine ⟨100, 80, 0, 0, 0, 0⟩ [] ⟨"P2", Dim.R, Dim.I, none, none⟩
    (by decide) (by decide) (by decide) (by decide) rfl rfl

/-- Bounds on the per-programme Scheme A score, for any top-code list and
any top-value list of length at most three. -/
theorem scoreProgramme_bounds (top : List Dim) (tvs : List String) (p : Programme)
    (h3 : tvs.length ≤ 3) :
    0 ≤ scoreProgramme top tvs p ∧ scoreProgramme top tvs p ≤ 31 / 2 := by
  have ht1 : ∀ t0 : Dim, 0 ≤ tier1Score t0 p ∧ tier1Score t0 p ≤ 5 := by
    intro t0
    unfold tier1Score
    split_ifs <;> norm_num
  have ht2b : ∀ t1 : Dim, 0 ≤ tier2Score t1 p ∧ tier2Score t1 p ≤ 3 := by
    intro t1
    unfold tier2Score
    rcases p.tertiary_riasec with _ | t <;> dsimp only <;> split_ifs <;> norm_num
  have ht3 : ∀ t2 : Dim, 0 ≤ tier3Score t2 p ∧ tier3Score t2 p ≤ 1 := by
    intro t2
    unfold tier3Score
    split_ifs <;> norm_num
  have hbo : ∀ t0 t1 : Dim, 0 ≤ bonusScore t0 t1 p ∧ bonusScore t0 t1 p ≤ 2 := by
    intro t0 t1
    unfold bonusScore
    split_ifs <;> norm_num
  have hv : 0 ≤ valueScore tvs p ∧ valueScore tvs p ≤ 9 / 2 := by
    unfold valueScore
    rcases p.value_tags with _ | s
    · norm_num
    · have hc : tvs.countP (fun v => (parseValueTags s).contains v) ≤ 3 :=
        le_trans (List.countP_le_length _) h3
      have hcq : ((tvs.countP (fun v => (parseValueTags s).contains v) : ℕ) : ℚ) ≤ 3 := by
        exact_mod_cast hc
      constructor
      · positivity
      · linarith
  unfold scoreProgramme
  rcases top.get? 0 with _ | t0 <;> rcases top.get? 1 with _ | t1 <;>
    rcases top.get? 2 with _ | t2 <;>
    simp only [zero_add, add_zero]
  · exact ⟨hv.1, le_trans hv.2 (by norm_num)⟩
  · exact ⟨add_nonneg (ht3 t2).1 hv.1,
      le_trans (add_le_add (ht3 t2).2 hv.2) (by norm_num)⟩
  · exact ⟨add_nonneg (ht2b t1).1 hv.1,
      le_trans (add_le_add (ht2b t1).2 hv.2) (by norm_num)⟩
  · exact ⟨add_nonneg (add_nonneg (ht2b t1).1 (ht3 t2).1) hv.1,
      le_trans (add_le_add (add_le_add (ht2b t1).2 (ht3 t2).2) hv.2) (by norm_num)⟩
  · exact ⟨add_nonneg (ht1 t0).1 hv.1,
      le_trans (add_le_add (ht1 t0).2 hv.2) (by norm_num)⟩
  · exact ⟨add_nonneg (add_nonneg (ht1 t0).1 (ht3 t2).1) hv.1,
      le_trans (add_le_add (add_le_add (ht1 t0).2 (ht3 t2).2) hv.2) (by norm_num)⟩
  · exact ⟨add_nonneg (add_nonneg (add_nonneg (ht1 t0).1 (ht2b t1).1) (hbo t0 t1).1) hv.1,
      le_trans (add_le_add (add_le_add (add_le_add (ht1 t0).2 (ht2b t1).2)
        (hbo t0 t1).2) hv.2) (by norm_num)⟩
  · exact ⟨add_nonneg (add_nonneg (add_nonneg (add_nonneg (ht1 t0).1 (ht2b t1).1)
        (ht3 t2).1) (hbo t0 t1).1) hv.1,
      le_trans (add_le_add (add_le_add (add_le_add (add_le_add (ht1 t0).2 (ht2b t1).2)
        (ht3 t2).2) (hbo t0 t1).2) hv.2) (by norm_num)⟩

/-- Claim C10: for every profile and every list of at most three distinct
top values, the Scheme A score of any programme is non-negative and at
most 15.5 (five from the first tier, three from the second, one from the
third, two from the bonus, and one and a half per matched value). -/
theorem c10_schemeA_score_bounds (sc : RiasecScores) (tvs : List String) (p : Programme)
    (hlen : tvs.length ≤ 3) (hnd : tvs.Nodup) :
    0 ≤ scoreProgramme (get_top_riasec sc 3) tvs p ∧
      scoreProgramme (get_top_riasec sc 3) tvs p ≤ 31 / 2 :=
  scoreProgramme_bounds (get_top_riasec sc 3) tvs p hlen

/-- Claim C10 witness: the bound instantiated at a concrete profile,
value list and programme. -/
theorem c10_schemeA_score_bounds_witness :
    0 ≤ scoreProgramme (get_top_riasec ⟨100, 80, 0, 0, 0, 0⟩ 3) ["technology"]
        ⟨"P3", Dim.R, Dim.I, none, some "technology"⟩ ∧
      scoreProgramme (get_top_riasec ⟨100, 80, 0, 0, 0, 0⟩ 3) ["technology"]
        ⟨"P3", Dim.R, Dim.I, none, some "technology"⟩ ≤ 31 / 2 :=
  c10_schemeA_score_bounds ⟨100, 80, 0, 0, 0, 0⟩ ["technology"]
    ⟨"P3", Dim.R, Dim.I, none, some "technology"⟩ (by decide) (by decide)

/-! ### Claims about the shared numeric utilities -/

/-- The dot product of a vector with itself is its sum of squares. -/
theorem dotModes_self_eq_normSq (a : Mode → ℚ) : dotModes a a = normSqModes a := by
  unfold dotModes normSqModes
  simp [WORK_MODES]
  ring

/-- The sum of squares is non-negative. -/
theorem normSqModes_nonneg (a : Mode → ℚ) : 0 ≤ normSqModes a := by
  unfold normSqModes
  simp only [WORK_MODES, List.map_cons, List.map_nil, List.sum_cons, List.sum_nil]
  positivity

/-- Claim C8: cosine similarity of a non-zero-magnitude vector with itself
is 1 (so within the stated tolerance of one billionth), and cosine of any
pair in which either operand has zero magnitude is exactly zero. -/
theorem c8_cosine_self_one_and_zero_convention :
    (∀ a : Mode → ℚ, magnitude a ≠ 0 → |cosine a a - 1| ≤ 1 / 1000000000) ∧
    (∀ a b : Mode → ℚ, magnitude a = 0 ∨ magnitude b = 0 → cosine a b = 0) := by
  constructor
  · intro a ha
    have hns : (0 : ℝ) ≤ ((normSqModes a : ℚ) : ℝ) := by
      exact_mod_cast normSqModes_nonneg a
    have hmm : magnitude a * magnitude a = ((normSqModes a : ℚ) : ℝ) :=
      Real.mul_self_sqrt hns
    have hne : ((normSqModes a : ℚ) : ℝ) ≠ 0 := by
      intro h0
      apply ha
      unfold magnitude
      rw [h0, Real.sqrt_zero]
    have hone : cosine a a = 1 := by
      unfold cosine
      rw [if_neg (not_or.mpr ⟨ha, ha⟩)]
      rw [dotModes_self_eq_normSq, hmm]
      exact div_self hne
    rw [hone]
    norm_num
  · intro a b h
    unfold cosine
    rw [if_pos h]

/-- The unit vector in the builder direction. -/
def unitBuilder : Mode → ℚ := fun m => if m = Mode.builder then 1 else 0

/-- The all-zero work-mode vector. -/
def zeroModeVec : Mode → ℚ := fun _ => 0

/-- Claim C8 witness: the cosine facts instantiated at the builder unit
vector and the zero vector. -/
theorem c8_cosine_witness :
    |cosine unitBuilder unitBuilder - 1| ≤ 1 / 1000000000 ∧
    cosine zeroModeVec unitBuilder = 0 := by
  have hns : normSqModes unitBuilder = 1 := by
    simp [normSqModes, WORK_MODES, unitBuilder]
  have hmag : magnitude unitBuilder ≠ 0 := by
    unfold magnitude
    rw [hns]
    simp [Real.sqrt_one]
  have h0 : normSqModes zeroModeVec = 0 := by
    simp [normSqModes, WORK_MODES, zeroModeVec]
  have hz : magnitude zeroModeVec = 0 := by
    unfold magnitude
    rw [h0]
    simp [Real.sqrt_zero]
  exact ⟨c8_cosine_self_one_and_zero_convention.1 unitBuilder hmag,
    c8_cosine_self_one_and_zero_convention.2 zeroModeVec unitBuilder (Or.inl hz)⟩

/-- Claim C9: the free-text keyword vector is the all-zero vector when no
keyword hits occur, and otherwise is rescaled so that its entries over the
seven work modes sum to exactly the constant 6. -/
theorem c9_text_vector_mass (text : String) :
    (textHits text = 0 → ∀ m : Mode, extract_modes_from_text text m = 0) ∧
    (textHits text ≠ 0 → (WORK_MODES.map (extract_modes_from_text text)).sum = 6) := by
  constructor
  · intro h m
    simp [extract_modes_from_text, h]
  · intro h
    have hq : ((textHits text : ℕ) : ℚ) ≠ 0 := by exact_mod_cast h
    have hH : ((textHits text : ℕ) : ℚ) =
        (textTally text Mode.builder : ℚ) + (textTally text Mode.analyst : ℚ) +
        (textTally text Mode.people : ℚ) + (textTally text Mode.creative : ℚ) +
        (textTally text Mode.researcher : ℚ) + (textTally text Mode.operator : ℚ) +
        (textTally text Mode.systems : ℚ) := by
      unfold textHits WORK_MODES
      push_cast [List.map_cons, List.map_nil, List.sum_cons, List.sum_nil]
      ring
    simp only [WORK_MODES, List.map_cons, List.map_nil, List.sum_cons, List.sum_nil,
      extract_modes_from_text, if_neg h]
    field_simp
    linarith [hH]

/-- Claim C9 witness: the empty text has no hits and a zero vector; the
text containing the keyword data has one hit and total mass 6. -/
theorem c9_text_vector_mass_witness :
    extract_modes_from_text "" Mode.builder = 0 ∧
    (WORK_MODES.map (extract_modes_from_text "data")).sum = 6 :=
  ⟨(c9_text_vector_mass "").1 (by decide) Mode.builder,
   (c9_text_vector_mass "data").2 (by decide)⟩

/-! ### Claims about the optional explanation collaborator -/

/-- A collaborator environment with no environment credential and no
secrets file: the secrets lookup raises. -/
def envNoSecretsFile : LLMEnv :=
  ⟨none, Except.error "No secrets files found", fun _ => Except.ok "fine"⟩

/-- A collaborator environment with the credential set in the process
environment and a network call that times out. -/
def envCallTimeout : LLMEnv :=
  ⟨some "key123", Except.ok none, fun _ => Except.error "timeout"⟩

/-- A collaborator environment with no environment credential and a
readable secrets store that has no credential entry. -/
def envKeyAbsent : LLMEnv :=
  ⟨none, Except.ok none, fun _ => Except.ok "fine"⟩

/-- Claim C5 counterexample: not every failure of the optional
explanation collaborator is recovered locally.  With no environment
credential and no secrets file (a standard missing-credential
deployment), the credential lookup raises outside the try/except and
llm_explain propagates the error instead of reducing it to the
no-explanation value. -/
theorem c5_counterexample_secrets_lookup_raises :
    llm_explain envNoSecretsFile [] = Except.error "No secrets files found" := rfl

/-- Claim C5 (amended): failures inside the guarded explanation call
(network error, timeout, malformed response) are recovered locally to
the no-explanation value, a credential absent from a readable secrets
store also reduces to no explanation, and the ranking and scores are the
same function of the questionnaire inputs whatever the collaborator
environment does; but the credential lookup runs outside the
try/except, so when no environment credential is set and the secrets
store itself raises (no secrets file), the failure propagates out of
llm_explain as a user-facing error rather than reducing to no
explanation. -/
theorem c5_amended_explanation_recovery :
    (∀ (ans : List (List String)) (about : String) (progs : List ProgrammeB)
        (env1 env2 : LLMEnv),
      (runSchemeB ans about progs env1).ranking =
        (runSchemeB ans about progs env2).ranking) ∧
    (∀ (env : LLMEnv) (rows : List ProgrammeB) (k e : String),
      env.envKey = some k → k ≠ "" → env.call rows = Except.error e →
      llm_explain env rows = Except.ok none) ∧
    (∀ (env : LLMEnv) (rows : List ProgrammeB),
      env.envKey = none → env.secrets = Except.ok none →
      llm_explain env rows = Except.ok none) ∧
    (∀ (env : LLMEnv) (rows : List ProgrammeB) (e : String),
      env.envKey = none → env.secrets = Except.error e →
      llm_explain env rows = Except.error e) := by
  refine ⟨?_, ?_, ?_, ?_⟩
  · intro ans about progs env1 env2
    rfl
  · intro env rows k e hk hne hc
    unfold llm_explain lookupApiKey
    rw [hk]
    simp only [if_neg hne, hc]
  · intro env rows hk hs
    unfold llm_explain lookupApiKey
    rw [hk, hs]
  · intro env rows e hk hs
    unfold llm_explain lookupApiKey
    rw [hk, hs]

/-- Claim C5 witness: the amended statement instantiated at concrete
environments for the recovered call failure, the recovered absent
credential, and the propagated secrets-store failure. -/
theorem c5_amended_explanation_recovery_witness :
    (runSchemeB [] "" [] envCallTimeout).ranking =
      (runSchemeB [] "" [] envKeyAbsent).ranking ∧
    llm_explain envCallTimeout [] = Except.ok none ∧
    llm_explain envKeyAbsent [] = Except.ok none ∧
    llm_explain envNoSecretsFile [] = Except.error "No secrets files found" :=
  ⟨c5_amended_explanation_recovery.1 [] "" [] envCallTimeout envKeyAbsent,
   c5_amended_explanation_recovery.2.1 envCallTimeout [] "key123" "timeout"
     rfl (by decide) rfl,
   c5_amended_explanation_recovery.2.2.1 envKeyAbsent [] rfl rfl,
   c5_amended_explanation_recovery.2.2.2 envNoSecretsFile []
     "No secrets files found" rfl rfl⟩
